import Mathlib

/-!
Shallow embedding of the VetCare MCP server core (src/server.js):
the SmartCache layer, the sliding-window RateLimiter, the Validators,
the retrying upstream client `apiRequest`, the search tool executors and
the JSON-RPC dispatcher, together with proofs about the specified
properties.

JavaScript values are modelled by the inductive `JSValue`; machine
numbers that matter here (timestamps, TTLs in milliseconds, counters)
are integers in the source, so they are modelled as `Int`/`Nat`.
-/

/-- Model of a JavaScript value as far as the server manipulates them:
`undefined`, `null`, booleans, (integer) numbers, strings, arrays and
plain objects (association lists of fields, in insertion order). -/
inductive JSValue where
  | vUndefined
  | vNull
  | vBool (b : Bool)
  | vNum (n : Int)
  | vStr (s : String)
  | vArr (xs : List JSValue)
  | vObj (fields : List (String × JSValue))

/-- JavaScript truthiness of a value (`if (x)`), as used by the cache
lookups (`if (cached)`, `cached.cached && cached.error`). -/
def truthy : JSValue → Bool
  | .vUndefined => false
  | .vNull => false
  | .vBool b => b
  | .vNum n => decide (n ≠ 0)
  | .vStr s => !s.isEmpty
  | .vArr _ => true
  | .vObj _ => true

/-- Field access `v.f`: `undefined` when `v` is not an object or the
field is absent. -/
def getField (v : JSValue) (f : String) : JSValue :=
  match v with
  | .vObj fields =>
    match fields.find? (fun p => p.1 = f) with
    | some p => p.2
    | none => .vUndefined
  | _ => .vUndefined

/-- `.length` of an array value (`result.data.length`). -/
def jsLength : JSValue → Int
  | .vArr xs => xs.length
  | _ => 0

/-- Extract the string content of a string value, `""` otherwise. -/
def jsStrOf : JSValue → String
  | .vStr s => s
  | _ => ""

-- ==================== CONFIG (src/server.js lines 43-78) ====================

def CONFIG.RETRY_ATTEMPTS : Nat := 3
def CONFIG.RETRY_DELAY : Nat := 2000
def CONFIG.API_TIMEOUT : Nat := 30000

def CONFIG.CACHE_TTL.SHORT : Int := 60000
def CONFIG.CACHE_TTL.MEDIUM : Int := 300000
def CONFIG.CACHE_TTL.LONG : Int := 900000
def CONFIG.CACHE_TTL.PERMANENT : Int := 3600000
def CONFIG.CACHE_TTL.NEGATIVE : Int := 30000

def CONFIG.RATE_LIMIT_WINDOW : Int := 60000
def CONFIG.RATE_LIMIT_MAX : Nat := 100

def CONFIG.FEATURES.CACHE_ENABLED : Bool := true
def CONFIG.FEATURES.NEGATIVE_CACHE_ENABLED : Bool := true
def CONFIG.FEATURES.RATE_LIMIT_ENABLED : Bool := true

-- ==================== Error codes (lines 269-278) ====================

def ErrorCodes.INVALID_REQUEST : Int := -32600
def ErrorCodes.METHOD_NOT_FOUND : Int := -32601
def ErrorCodes.INVALID_PARAMS : Int := -32602
def ErrorCodes.INTERNAL_ERROR : Int := -32603
def ErrorCodes.VALIDATION_ERROR : Int := -32604
def ErrorCodes.RATE_LIMIT_ERROR : Int := -32605
def ErrorCodes.API_ERROR : Int := -32606
def ErrorCodes.TIMEOUT_ERROR : Int := -32607

-- ==================== Association-list Map model ====================

/-- `Map.set`: replace in place if the key exists (JS `Map` keeps the
original insertion position), append otherwise. -/
def assocSet {α : Type} : List (String × α) → String → α → List (String × α)
  | [], k, v => [(k, v)]
  | (k', v') :: rest, k, v =>
    if k' = k then (k, v) :: rest else (k', v') :: assocSet rest k v

/-- `Map.get`. -/
def assocGet {α : Type} : List (String × α) → String → Option α
  | [], _ => none
  | (k', v') :: rest, k => if k' = k then some v' else assocGet rest k

/-- `Map.delete`. -/
def assocDelete {α : Type} : List (String × α) → String → List (String × α)
  | [], _ => []
  | (k', v') :: rest, k =>
    if k' = k then rest else (k', v') :: assocDelete rest k

-- ==================== SmartCache (lines 118-238) ====================

/-- One entry of the `SmartCache` map.  A positively `set` entry has no
`error` field (`none` here); a `setNegative` entry stores `value: null`
and the error message. -/
structure CacheItem where
  value : JSValue
  error : Option String
  expiry : Int
  hits : Nat
  created : Int
  isNegative : Bool

structure SmartCache where
  cache : List (String × CacheItem)
  defaultTTL : Int
  hits : Nat
  misses : Nat
  negativeHits : Nat
  enabled : Bool
  negativeEnabled : Bool

/-- The `SmartCache` constructor (lines 119-127). -/
def SmartCache.new (defaultTTL : Int) : SmartCache :=
  { cache := []
    defaultTTL := defaultTTL
    hits := 0
    misses := 0
    negativeHits := 0
    enabled := CONFIG.FEATURES.CACHE_ENABLED
    negativeEnabled := CONFIG.FEATURES.NEGATIVE_CACHE_ENABLED }

/-- `ttl || this.defaultTTL`: a `null` (absent) or `0` ttl falls back to
the default (JS falsiness of `0`). -/
def jsTtlOr (ttl : Option Int) (d : Int) : Int :=
  match ttl with
  | none => d
  | some t => if t = 0 then d else t

/-- `SmartCache.set` (lines 129-141). -/
def SmartCache.set (c : SmartCache) (key : String) (value : JSValue)
    (ttl : Option Int) (now : Int) : SmartCache :=
  if !c.enabled then c
  else
    let item : CacheItem :=
      { value := value
        error := none
        expiry := now + jsTtlOr ttl c.defaultTTL
        hits := 0
        created := now
        isNegative := false }
    { c with cache := assocSet c.cache key item }

/-- `SmartCache.setNegative` (lines 143-155); the default `ttl`
argument is `CONFIG.CACHE_TTL.NEGATIVE`, supplied at call sites. -/
def SmartCache.setNegative (c : SmartCache) (key : String) (error : String)
    (ttl : Int) (now : Int) : SmartCache :=
  if !(c.enabled && c.negativeEnabled) then c
  else
    let item : CacheItem :=
      { value := .vNull
        error := some error
        expiry := now + ttl
        hits := 0
        created := now
        isNegative := true }
    { c with cache := assocSet c.cache key item }

/-- The negative-hit wrapper `{ cached: true, error: item.error }`
returned by `get` on a negative entry. -/
def negWrapper (e : Option String) : JSValue :=
  .vObj [("cached", .vBool true),
         ("error", match e with | some s => .vStr s | none => .vUndefined)]

/-- `SmartCache.get` (lines 157-180): `null` on miss, `null` plus
eviction on expiry, the wrapper on a negative hit, the stored payload
(with hit counters bumped) on a positive hit. -/
def SmartCache.get (c : SmartCache) (key : String) (now : Int) :
    JSValue × SmartCache :=
  if !c.enabled then (.vNull, c)
  else
    match assocGet c.cache key with
    | none => (.vNull, { c with misses := c.misses + 1 })
    | some item =>
      if now > item.expiry then
        (.vNull, { c with cache := assocDelete c.cache key,
                          misses := c.misses + 1 })
      else if item.isNegative then
        (negWrapper item.error, { c with negativeHits := c.negativeHits + 1 })
      else
        (item.value,
         { c with cache := assocSet c.cache key { item with hits := item.hits + 1 },
                  hits := c.hits + 1 })

-- ==================== RateLimiter (lines 282-332) ====================

/-- `RateLimiter.checkLimit` (lines 290-310) for one identifier.
`stored` is the timestamp list held in the map for that identifier
(`[]` when absent).  `doClean` models whether the `Math.random() < 0.1`
probabilistic `cleanup()` fires on the admission path; `cleanup`
re-filters the just-stored list with the same clock reading. -/
def checkLimit (windowMs : Int) (maxRequests : Nat) (enabled : Bool)
    (stored : List Int) (now : Int) (doClean : Bool) : Bool × List Int :=
  if !enabled then (true, stored)
  else
    let recentRequests := stored.filter (fun t => decide (now - t < windowMs))
    if maxRequests ≤ recentRequests.length then
      (false, stored)
    else
      let stored' := recentRequests ++ [now]
      if doClean then
        (true, stored'.filter (fun t => decide (now - t < windowMs)))
      else
        (true, stored')

/-- `RateLimiter.getRemainingTime` (lines 324-331). -/
def getRemainingTime (windowMs : Int) (stored : List Int) (now : Int) : Int :=
  match stored with
  | [] => 0
  | t :: ts =>
    let oldest := ts.foldl min t
    let remainingMs := oldest + windowMs - now
    max 0 (-((-remainingMs).fdiv 1000))

/-- Run the limiter from an initial stored list over a sequence of
(request time, cleanup fired) steps, with the production configuration
flag `enabled = CONFIG.FEATURES.RATE_LIMIT_ENABLED`; returns the list of
admitted timestamps in order. -/
def rlRun (windowMs : Int) (maxRequests : Nat) :
    List Int → List (Int × Bool) → List Int
  | _, [] => []
  | stored, (t, cl) :: rest =>
    let res := checkLimit windowMs maxRequests CONFIG.FEATURES.RATE_LIMIT_ENABLED
        stored t cl
    if res.1 then t :: rlRun windowMs maxRequests res.2 rest
    else rlRun windowMs maxRequests res.2 rest

/-- Number of timestamps of `l` inside the trailing window `(T - W, T]`. -/
def countW (W T : Int) (l : List Int) : Nat :=
  (l.filter (fun a => decide (a ≤ T) && decide (T - a < W))).length

-- ==================== Validators.cpf (lines 356-378) ====================

/-- `value.replace(/\D/g, '')` followed by reading each character as a
digit: the digits of the input, in order. -/
def cpfDigits (s : String) : List Nat :=
  (s.data.filter Char.isDigit).map (fun c => c.toNat - 48)

/-- The regex `/^(\d)\1+$/`: two or more characters, all the same digit. -/
def repeatedDigits : List Nat → Bool
  | [] => false
  | [_] => false
  | d :: rest => rest.all (fun x => x = d)

/-- One weighted mod-11 check digit: `11 - (soma % 11)`, folded to `0`
when above `9`. -/
def cpfCheckDigit (soma : Nat) : Nat :=
  let d := 11 - soma % 11
  if d > 9 then 0 else d

/-- First weighted sum: digits 0..8 with weights 10..2. -/
def cpfSoma1 (ds : List Nat) : Nat :=
  (List.range 9).foldl (fun s i => s + ds.getD i 0 * (10 - i)) 0

/-- Second weighted sum: digits 0..9 with weights 11..2. -/
def cpfSoma2 (ds : List Nat) : Nat :=
  (List.range 10).foldl (fun s i => s + ds.getD i 0 * (11 - i)) 0

/-- `Validators.cpf` (lines 356-378). -/
def Validators.cpf (value : String) : Bool :=
  if value = "" then false
  else
    let cpf := cpfDigits value
    if cpf.length ≠ 11 || repeatedDigits cpf then false
    else
      let digito1 := cpfCheckDigit (cpfSoma1 cpf)
      if cpf.getD 9 0 ≠ digito1 then false
      else
        let digito2 := cpfCheckDigit (cpfSoma2 cpf)
        if cpf.getD 10 0 ≠ digito2 then false
        else true

/-- The property the claim states the validator decides: the two check
digits match the weighted mod-11 checksum computed from the 9-digit
base (this is the claim-side reference definition, independent of the
repeated-digit guard). -/
def cpfChecksumSpec (ds : List Nat) : Bool :=
  ds.getD 9 0 = cpfCheckDigit (cpfSoma1 ds) &&
  ds.getD 10 0 = cpfCheckDigit (cpfSoma2 ds)

-- ==================== Upstream client: apiRequest (lines 565-645) ====================

/-- Outcome of one HTTP attempt as observed by the `try` block of
`apiRequest`: a parsed OK payload, a non-OK response with its status and
body text, an abort of the 30 s timeout (`AbortError`), or any other
fetch/parse failure with its message. -/
inductive AttemptOutcome where
  | ok (payload : JSValue)
  | httpErr (status : Nat) (text : String)
  | timeout
  | transportErr (msg : String)

/-- Terminal outcome of `apiRequest`: the `{success:true, data}` return,
a thrown classified `MCPError (code, msg)`, or the (unreachable for
`retries ≥ 1`) fall-through `{success:false, error:'Max retries
exceeded'}` return of line 644. -/
inductive ApiOutcome where
  | ok (data : JSValue)
  | err (code : Int) (msg : String)
  | maxRetriesExceeded

/-- Observable trace of one `apiRequest` run: how many HTTP attempts
were issued, the inter-attempt delays in order, the `setNegative`
writes (key, message) in order, and the terminal outcome. -/
structure ApiResult where
  attempts : Nat
  delays : List Nat
  negWrites : List (String × String)
  outcome : ApiOutcome

/-- The `for (attempt = 1; attempt <= retries; attempt++)` loop of
`apiRequest` (lines 576-642).  `up attempt` is the outcome of the HTTP
attempt with that number.  The fuel argument equals
`retries + 1 - attempt` and only reaches `0` when the loop condition
fails.  A thrown `Error` inside the `try` block (both the 4xx throw of
line 607 and the final-attempt 5xx throw of line 615) is caught by the
`catch` of line 622, whose generic branch retries while
`attempt < retries` and otherwise stores a negative entry and throws a
classified `MCPError`. -/
def apiLoop (up : Nat → AttemptOutcome) (retries : Nat) (cacheKey : String) :
    Nat → Nat → ApiResult
  | 0, attempt => { attempts := attempt - 1, delays := [], negWrites := [],
                    outcome := .maxRetriesExceeded }
  | fuel + 1, attempt =>
    match up attempt with
    | .ok payload =>
      { attempts := attempt, delays := [], negWrites := [], outcome := .ok payload }
    | .httpErr status text =>
      let msg := s!"API Error {status}: {text}"
      if 400 ≤ status && status < 500 then
        -- line 606: setNegative before the throw; the throw is caught by
        -- the catch of line 622, which retries while attempt < retries.
        if attempt < retries then
          let r := apiLoop up retries cacheKey fuel (attempt + 1)
          { r with delays := CONFIG.RETRY_DELAY * attempt :: r.delays,
                   negWrites := (cacheKey, msg) :: r.negWrites }
        else
          -- final attempt: setNegative at line 606, then again at line
          -- 638 in the catch, then throw MCPError(API_ERROR).
          { attempts := attempt, delays := [],
            negWrites := [(cacheKey, msg), (cacheKey, msg)],
            outcome := .err ErrorCodes.API_ERROR msg }
      else
        if attempt < retries then
          let r := apiLoop up retries cacheKey fuel (attempt + 1)
          { r with delays := CONFIG.RETRY_DELAY * attempt :: r.delays }
        else
          { attempts := attempt, delays := [], negWrites := [(cacheKey, msg)],
            outcome := .err ErrorCodes.API_ERROR msg }
    | .timeout =>
      if attempt < retries then
        let r := apiLoop up retries cacheKey fuel (attempt + 1)
        { r with delays := CONFIG.RETRY_DELAY * attempt :: r.delays }
      else
        { attempts := attempt, delays := [],
          negWrites := [(cacheKey, "API timeout")],
          outcome := .err ErrorCodes.TIMEOUT_ERROR "API timeout" }
    | .transportErr m =>
      if attempt < retries then
        let r := apiLoop up retries cacheKey fuel (attempt + 1)
        { r with delays := CONFIG.RETRY_DELAY * attempt :: r.delays }
      else
        { attempts := attempt, delays := [], negWrites := [(cacheKey, m)],
          outcome := .err ErrorCodes.API_ERROR m }

/-- Escape a JSON string body (quotes and backslashes only, which the
cache-key computation never exercises in the claims). -/
def jsonEscape (s : String) : String :=
  String.mk (s.data.flatMap (fun c =>
    if c = '"' then ['\\', '"']
    else if c = '\\' then ['\\', '\\']
    else [c]))

mutual

/-- A minimal JSON serializer for the cache-key computation
(`JSON.stringify(data)`). -/
def jsonStringify : JSValue → String
  | .vUndefined => "null"
  | .vNull => "null"
  | .vBool b => if b then "true" else "false"
  | .vNum n => toString n
  | .vStr s => "\"" ++ jsonEscape s ++ "\""
  | .vArr xs => "[" ++ jsonStringifyList xs ++ "]"
  | .vObj fs => "\x7b" ++ jsonStringifyFields fs ++ "\x7d"

def jsonStringifyList : List JSValue → String
  | [] => ""
  | [x] => jsonStringify x
  | x :: y :: rest => jsonStringify x ++ "," ++ jsonStringifyList (y :: rest)

def jsonStringifyFields : List (String × JSValue) → String
  | [] => ""
  | [(k, v)] => "\"" ++ jsonEscape k ++ "\":" ++ jsonStringify v
  | (k, v) :: f :: rest =>
    "\"" ++ jsonEscape k ++ "\":" ++ jsonStringify v ++ "," ++
      jsonStringifyFields (f :: rest)

end

/-- The cache key of line 569:
`api_${method}_${endpoint}_${data ? JSON.stringify(data) : ''}`. -/
def mkApiCacheKey (method endpoint : String) (data : Option JSValue) : String :=
  "api_" ++ method ++ "_" ++ endpoint ++ "_" ++
    (match data with | some d => jsonStringify d | none => "")

/-- `apiRequest` (lines 565-645): negative-cache fast fail against the
`financeiro` cache instance, then the retry loop; the loop's
`setNegative` writes are applied to the cache. -/
def apiRequest (fin : SmartCache) (up : Nat → AttemptOutcome)
    (method endpoint : String) (data : Option JSValue) (retries : Nat)
    (now : Int) : ApiResult × SmartCache :=
  let cacheKey := mkApiCacheKey method endpoint data
  let (cached, fin1) := fin.get cacheKey now
  if truthy cached && truthy (getField cached "cached") &&
     truthy (getField cached "error") then
    ({ attempts := 0, delays := [], negWrites := [],
       outcome := .err ErrorCodes.API_ERROR (jsStrOf (getField cached "error")) },
     fin1)
  else
    let r := apiLoop up retries cacheKey retries 1
    (r, r.negWrites.foldl
      (fun c kv => c.setNegative kv.1 kv.2 CONFIG.CACHE_TTL.NEGATIVE now) fin1)

-- ==================== encodeURIComponent (ASCII model) ====================

/-- Characters `encodeURIComponent` leaves unescaped. -/
def uriUnreserved (c : Char) : Bool :=
  c.isAlphanum || c = '-' || c = '_' || c = '.' || c = '!' || c = '~' ||
  c = '*' || c.toNat = 39 || c = '(' || c = ')'

def hexDigitChar (n : Nat) : Char :=
  if n < 10 then Char.ofNat (48 + n) else Char.ofNat (55 + n)

/-- ASCII model of the JS builtin `encodeURIComponent`. -/
def encodeURIComponent (s : String) : String :=
  String.mk (s.data.flatMap (fun c =>
    if uriUnreserved c then [c]
    else ['%', hexDigitChar (c.toNat % 256 / 16), hexDigitChar (c.toNat % 16)]))

-- ==================== Tool executors ====================

/-- `listarPetsCliente` (lines 844-877): read-through on the `pets`
cache instance, upstream call on miss, positive caching of the shaped
response with the MEDIUM TTL.  Returns (response, pets cache,
financeiro cache, number of HTTP attempts issued). -/
def listarPetsCliente (pets fin : SmartCache) (up : Nat → AttemptOutcome)
    (cliente_id : String) (now : Int) :
    JSValue × SmartCache × SmartCache × Nat :=
  let cacheKey := "pets_cliente_" ++ cliente_id
  let (cached, pets1) := pets.get cacheKey now
  if truthy cached then
    if truthy (getField cached "cached") && truthy (getField cached "error") then
      (.vObj [("success", .vBool false), ("pets", .vArr []),
              ("error", getField cached "error")], pets1, fin, 0)
    else
      (cached, pets1, fin, 0)
  else
    let (r, fin1) := apiRequest fin up "GET" ("/clientes/" ++ cliente_id ++ "/pets")
        none CONFIG.RETRY_ATTEMPTS now
    match r.outcome with
    | .ok data =>
      let resp : JSValue := .vObj [("success", .vBool true), ("pets", data),
                                   ("total", .vNum (jsLength data))]
      (resp, pets1.set cacheKey resp (some CONFIG.CACHE_TTL.MEDIUM) now, fin1,
       r.attempts)
    | .err _ m =>
      -- the MCPError thrown by apiRequest reaches the executor's catch
      (.vObj [("success", .vBool false), ("pets", .vArr []),
              ("error", .vStr m)], pets1, fin1, r.attempts)
    | .maxRetriesExceeded =>
      (.vObj [("success", .vBool false), ("pets", .vArr []),
              ("error", .vStr "Max retries exceeded")],
       pets1.setNegative cacheKey "Max retries exceeded"
         CONFIG.CACHE_TTL.NEGATIVE now, fin1, r.attempts)

/-- `buscarClientes` (lines 702-755): mandatory minimum-3-character
search term, cache per lower-cased term, 50-result cap on success. -/
def buscarClientes (cCache fin : SmartCache) (up : Nat → AttemptOutcome)
    (termo_busca : Option String) (now : Int) :
    JSValue × SmartCache × SmartCache × Nat :=
  let t := termo_busca.getD ""
  if t = "" || t.trim.length < 3 then
    (.vObj [("success", .vBool false), ("clientes", .vArr []),
            ("error", .vStr "Termo de busca obrigatório (mínimo 3 caracteres). Informe nome, telefone, CPF ou email do cliente.")],
     cCache, fin, 0)
  else
    let termoLimpo := t.trim
    let endpoint := "/clientes?busca=" ++ encodeURIComponent termoLimpo
    let cacheKey := "clientes_busca_" ++ termoLimpo.toLower
    let (cached, cCache1) := cCache.get cacheKey now
    if truthy cached then
      if truthy (getField cached "cached") && truthy (getField cached "error") then
        (.vObj [("success", .vBool false), ("clientes", .vArr []),
                ("error", getField cached "error")], cCache1, fin, 0)
      else
        (cached, cCache1, fin, 0)
    else
      let (r, fin1) := apiRequest fin up "GET" endpoint none
          CONFIG.RETRY_ATTEMPTS now
      match r.outcome with
      | .ok data =>
        let clientes := match data with | .vArr xs => xs | _ => []
        let clientesLimitados := clientes.take 50
        let resp : JSValue := .vObj
          [("success", .vBool true),
           ("clientes", .vArr clientesLimitados),
           ("total", .vNum clientesLimitados.length),
           ("total_encontrado", .vNum clientes.length),
           ("limitado", .vBool (decide (50 < clientes.length)))]
        (resp, cCache1.set cacheKey resp (some CONFIG.CACHE_TTL.MEDIUM) now,
         fin1, r.attempts)
      | .err _ m =>
        (.vObj [("success", .vBool false), ("clientes", .vArr []),
                ("error", .vStr m)], cCache1, fin1, r.attempts)
      | .maxRetriesExceeded =>
        (.vObj [("success", .vBool false), ("clientes", .vArr []),
                ("error", .vStr "Max retries exceeded")],
         cCache1.setNegative cacheKey "Max retries exceeded"
           CONFIG.CACHE_TTL.NEGATIVE now, fin1, r.attempts)

/-- `buscarServicos` (lines 1631-1677): mandatory minimum-2-character
term, cache per term on the `servicos` instance with the LONG TTL; the
successful result list is returned in full (no result cap). -/
def buscarServicos (sCache fin : SmartCache) (up : Nat → AttemptOutcome)
    (termo_busca : Option String) (now : Int) :
    JSValue × SmartCache × SmartCache × Nat :=
  let t := termo_busca.getD ""
  if t = "" || t.trim.length < 2 then
    (.vObj [("success", .vBool false), ("servicos", .vArr []),
            ("error", .vStr "Termo de busca obrigatório (mínimo 2 caracteres). Ex: consulta, banho, vacina, etc.")],
     sCache, fin, 0)
  else
    let endpoint := "/servicos?busca=" ++ encodeURIComponent t.trim
    let cacheKey := "servicos_busca_" ++ t.trim.toLower
    let (cached, sCache1) := sCache.get cacheKey now
    if truthy cached then
      if truthy (getField cached "cached") && truthy (getField cached "error") then
        (.vObj [("success", .vBool false), ("servicos", .vArr []),
                ("error", getField cached "error")], sCache1, fin, 0)
      else
        (cached, sCache1, fin, 0)
    else
      let (r, fin1) := apiRequest fin up "GET" endpoint none
          CONFIG.RETRY_ATTEMPTS now
      match r.outcome with
      | .ok data =>
        let servicos := match data with | .vArr xs => xs | _ => []
        let resp : JSValue := .vObj
          [("success", .vBool true),
           ("servicos", .vArr servicos),
           ("total", .vNum servicos.length)]
        (resp, sCache1.set cacheKey resp (some CONFIG.CACHE_TTL.LONG) now,
         fin1, r.attempts)
      | .err _ m =>
        (.vObj [("success", .vBool false), ("servicos", .vArr []),
                ("error", .vStr m)], sCache1, fin1, r.attempts)
      | .maxRetriesExceeded =>
        (.vObj [("success", .vBool false), ("servicos", .vArr []),
                ("error", .vStr "Max retries exceeded")],
         sCache1.setNegative cacheKey "Max retries exceeded"
           CONFIG.CACHE_TTL.NEGATIVE now, fin1, r.attempts)

/-- `s.includes(sub)` on strings. -/
def strIncludes (s sub : String) : Bool :=
  decide (sub.data <:+: s.data)

/-- The pet filter of lines 2356-2359. -/
def petMatches (termoLimpo : String) (p : JSValue) : Bool :=
  (truthy (getField p "nome") &&
    strIncludes (jsStrOf (getField p "nome")).toLower termoLimpo) ||
  (truthy (getField p "especie") &&
    strIncludes (jsStrOf (getField p "especie")).toLower termoLimpo)

/-- The service filter of lines 2371-2374. -/
def servicoMatches (termoLimpo : String) (s : JSValue) : Bool :=
  (truthy (getField s "nome") &&
    strIncludes (jsStrOf (getField s "nome")).toLower termoLimpo) ||
  (truthy (getField s "tipo") &&
    strIncludes (jsStrOf (getField s "tipo")).toLower termoLimpo)

/-- `buscaGlobal` (lines 2327-2393).  The four `apiRequest`s are issued
concurrently through `Promise.allSettled`, so each starts against the
same snapshot of the negative cache; their later cache writes are not
consumed inside this function and are not threaded here.  Returns the
shaped response and the total number of HTTP attempts issued.  Note the
function performs no minimum-length validation of `termo`. -/
def buscaGlobal (fin : SmartCache) (up : String → Nat → AttemptOutcome)
    (termo : String) (now : Int) : JSValue × Nat :=
  let termoLimpo := termo.toLower.trim
  let e1 := "/clientes?busca=" ++ encodeURIComponent termo
  let e2 := "/pets?page=1"
  let e3 := "/produtos?busca=" ++ encodeURIComponent termo
  let e4 := "/servicos"
  let r1 := (apiRequest fin (up e1) "GET" e1 none CONFIG.RETRY_ATTEMPTS now).1
  let r2 := (apiRequest fin (up e2) "GET" e2 none CONFIG.RETRY_ATTEMPTS now).1
  let r3 := (apiRequest fin (up e3) "GET" e3 none CONFIG.RETRY_ATTEMPTS now).1
  let r4 := (apiRequest fin (up e4) "GET" e4 none CONFIG.RETRY_ATTEMPTS now).1
  let clientes := match r1.outcome with
    | .ok d => (match d with | .vArr xs => xs | _ => []).take 10
    | _ => []
  let pets := match r2.outcome with
    | .ok d =>
      let dd := getField d "data"
      let petsData := if truthy dd then dd else if truthy d then d else .vArr []
      let petsArr := match petsData with | .vArr xs => xs | _ => []
      (petsArr.filter (petMatches termoLimpo)).take 10
    | _ => []
  let produtos := match r3.outcome with
    | .ok d => (match d with | .vArr xs => xs | _ => []).take 10
    | _ => []
  let servicos := match r4.outcome with
    | .ok d =>
      ((match d with | .vArr xs => xs | _ => []).filter
        (servicoMatches termoLimpo)).take 10
    | _ => []
  let resp : JSValue := .vObj
    [("success", .vBool true),
     ("resultados", .vObj
       [("clientes", .vArr clientes), ("pets", .vArr pets),
        ("produtos", .vArr produtos), ("servicos", .vArr servicos)]),
     ("total", .vObj
       [("clientes", .vNum clientes.length), ("pets", .vNum pets.length),
        ("produtos", .vNum produtos.length), ("servicos", .vNum servicos.length)]),
     ("termo_busca", .vStr termo)]
  (resp, r1.attempts + r2.attempts + r3.attempts + r4.attempts)

-- ==================== Tool registry and dispatcher (lines 2543-3620) ====================

/-- The declarative tool registry `toolDefinitions` (lines 2543-3221),
a module-level constant: the tool names in declaration order.  The
per-tool descriptions and input schemas are inert data not consulted by
any dispatch decision and are omitted from the embedding. -/
def toolDefinitions : List String :=
  ["buscar_cliente_por_telefone", "buscar_clientes", "criar_cliente",
   "atualizar_cliente", "listar_pets_cliente", "buscar_pet_por_id",
   "criar_pet", "listar_agendamentos", "criar_agendamento",
   "atualizar_status_agendamento", "listar_servicos_ativos",
   "listar_veterinarios", "listar_vacinas_ativas", "registrar_vacinacao",
   "buscar_produtos", "criar_produto", "listar_contas_receber",
   "criar_conta_receber", "registrar_pagamento", "obter_caixa_aberto",
   "abrir_caixa", "fechar_caixa", "criar_venda",
   "obter_indicadores_dashboard", "obter_insights_dashboard",
   "obter_estatisticas_financeiras", "listar_comissoes", "obter_alertas",
   "obter_badge_alertas", "obter_historico_vacinacao",
   "obter_historico_clinico", "obter_historico_peso", "obter_exames_pet",
   "solicitar_exame", "listar_tipos_exame", "registrar_anamnese",
   "verificar_vacinas_atrasadas", "obter_estatisticas_pet",
   "validar_horario_disponivel", "listar_proximos_agendamentos",
   "buscar_servicos", "listar_planos", "workflow_agendamento_completo",
   "busca_global", "workflow_novo_cliente"]

/-- The keys of the `toolFunctions` map (lines 3224-3299). -/
def toolFunctionNames : List String :=
  ["buscar_cliente_por_telefone", "buscar_clientes", "criar_cliente",
   "atualizar_cliente", "listar_pets_cliente", "buscar_pet_por_id",
   "criar_pet", "listar_agendamentos", "criar_agendamento",
   "atualizar_status_agendamento", "validar_horario_disponivel",
   "listar_proximos_agendamentos", "listar_servicos_ativos",
   "buscar_servicos", "listar_veterinarios", "listar_planos",
   "listar_vacinas_ativas", "registrar_vacinacao",
   "obter_historico_vacinacao", "verificar_vacinas_atrasadas",
   "obter_historico_clinico", "obter_historico_peso", "registrar_anamnese",
   "obter_exames_pet", "solicitar_exame", "listar_tipos_exame",
   "obter_estatisticas_pet", "buscar_produtos", "criar_produto",
   "listar_contas_receber", "criar_conta_receber", "registrar_pagamento",
   "obter_caixa_aberto", "abrir_caixa", "fechar_caixa", "criar_venda",
   "obter_indicadores_dashboard", "obter_insights_dashboard",
   "obter_estatisticas_financeiras", "listar_comissoes", "obter_alertas",
   "obter_badge_alertas", "busca_global", "workflow_novo_cliente",
   "workflow_agendamento_completo"]

/-- Routing decision of the `app.post('/')` handler (lines 3505-3620),
up to (but not including) executing the routed tool. -/
inductive RpcOutcome where
  | rateLimited (remaining : Int)
  | invalidEmpty
  | invalidJsonRpc
  | initRes
  | initAckRes
  | toolsListRes (tools : List String)
  | toolNotFound (name : JSValue)
  | toolCallRes (name : String)
  | methodNotFound (m : JSValue)

/-- The protocol error code of the `MCPError` thrown (if any) on each
routing outcome, as mapped by `formatMCPResponse` in the catch of line
3610. -/
def rpcErrorCode : RpcOutcome → Option Int
  | .rateLimited _ => some ErrorCodes.RATE_LIMIT_ERROR
  | .invalidEmpty => some ErrorCodes.INVALID_REQUEST
  | .invalidJsonRpc => some ErrorCodes.INVALID_REQUEST
  | .toolNotFound _ => some ErrorCodes.METHOD_NOT_FOUND
  | .methodNotFound _ => some ErrorCodes.METHOD_NOT_FOUND
  | _ => none

/-- JS strict equality `v === "s"` of a value against a string literal. -/
def jsIsStr (v : JSValue) (s : String) : Bool :=
  match v with
  | .vStr t => t = s
  | _ => false

/-- Field lookup of the destructuring
`const { jsonrpc, id, method, params = {} } = req.body || {}`. -/
def bodyField (body : Option (List (String × JSValue))) (f : String) : JSValue :=
  match body with
  | none => .vUndefined
  | some fields =>
    match fields.find? (fun p => p.1 = f) with
    | some p => p.2
    | none => .vUndefined

/-- The MCP dispatcher `app.post('/')` (lines 3505-3620) for one
caller: `lim` is the rate-limiter timestamp list stored for this
caller's identity.  Note the order of the handler: the rate limiter is
consulted (and, on admission, records the request) at lines 3513-3521,
before the empty-body check of line 3523 and the `jsonrpc !== "2.0"`
check of line 3527.  Returns the routing outcome and the caller's new
rate-limiter state. -/
def dispatch (lim : List Int) (now : Int) (doClean : Bool)
    (body : Option (List (String × JSValue))) : RpcOutcome × List Int :=
  let check := checkLimit CONFIG.RATE_LIMIT_WINDOW CONFIG.RATE_LIMIT_MAX
      CONFIG.FEATURES.RATE_LIMIT_ENABLED lim now doClean
  if !check.1 then
    (.rateLimited (getRemainingTime CONFIG.RATE_LIMIT_WINDOW lim now), check.2)
  else
    let emptyBody := match body with
      | none => true
      | some fields => fields.isEmpty
    if emptyBody then (.invalidEmpty, check.2)
    else if !jsIsStr (bodyField body "jsonrpc") "2.0" then
      (.invalidJsonRpc, check.2)
    else
      match bodyField body "method" with
      | .vStr "initialize" => (.initRes, check.2)
      | .vStr "notifications/initialized" => (.initAckRes, check.2)
      | .vStr "tools/list" => (.toolsListRes toolDefinitions, check.2)
      | .vStr "tools/call" =>
        let toolName := getField (bodyField body "params") "name"
        if truthy toolName &&
           (match toolName with | .vStr _ => true | _ => false) &&
           toolFunctionNames.contains (jsStrOf toolName) then
          (.toolCallRes (jsStrOf toolName), check.2)
        else
          (.toolNotFound toolName, check.2)
      | m => (.methodNotFound m, check.2)

-- ==================== Claim-side predicates ====================

/-- A server-error (5xx) response or a timeout, the retryable failures
named by the spec. -/
def serverErrOrTimeout (o : AttemptOutcome) : Bool :=
  match o with
  | .httpErr s _ => decide (500 ≤ s)
  | .timeout => true
  | _ => false

/-- A malformed JSON-RPC envelope as the claim describes it: empty
body, or `jsonrpc` field not strictly equal to `"2.0"`. -/
def malformedBody (body : Option (List (String × JSValue))) : Bool :=
  match body with
  | none => true
  | some fields =>
    fields.isEmpty || !jsIsStr (bodyField (some fields) "jsonrpc") "2.0"

-- ==================== Helper lemmas ====================

theorem assocGet_assocSet_self {α : Type} (l : List (String × α)) (k : String)
    (v : α) : assocGet (assocSet l k v) k = some v := by
  induction l with
  | nil => simp [assocSet, assocGet]
  | cons p rest ih =>
    by_cases h : p.1 = k
    · simp [assocSet, assocGet, h]
    · simp [assocSet, assocGet, h, ih]

theorem assocGet_eq_none_of_not_mem {α : Type} (l : List (String × α))
    (k : String) (h : k ∉ l.map Prod.fst) : assocGet l k = none := by
  induction l with
  | nil => simp [assocGet]
  | cons p rest ih =>
    simp only [List.map_cons, List.mem_cons] at h
    push_neg at h
    have h1 : ¬ p.1 = k := fun he => h.1 he.symm
    simp [assocGet, h1, ih h.2]

theorem assocSet_keys {α : Type} (l : List (String × α)) (k : String) (v : α) :
    (assocSet l k v).map Prod.fst = l.map Prod.fst ∨
    (assocSet l k v).map Prod.fst = l.map Prod.fst ++ [k] := by
  induction l with
  | nil => simp [assocSet]
  | cons p rest ih =>
    by_cases h : p.1 = k
    · left; simp [assocSet, h]
    · rcases ih with ih | ih
      · left; simp [assocSet, h, ih]
      · right; simp [assocSet, h, ih]

theorem assocSet_nodup {α : Type} (l : List (String × α)) (k : String) (v : α)
    (h : (l.map Prod.fst).Nodup) : ((assocSet l k v).map Prod.fst).Nodup := by
  induction l with
  | nil => simp [assocSet]
  | cons p rest ih =>
    simp only [List.map_cons, List.nodup_cons] at h
    by_cases hk : p.1 = k
    · subst hk
      simpa [assocSet] using h
    · have ih2 := ih h.2
      rcases assocSet_keys rest k v with hkeys | hkeys
      · rw [show assocSet (p :: rest) k v = p :: assocSet rest k v by
          simp [assocSet, hk]]
        rw [List.map_cons, List.nodup_cons, hkeys]
        rw [hkeys] at ih2
        exact ⟨h.1, ih2⟩
      · rw [show assocSet (p :: rest) k v = p :: assocSet rest k v by
          simp [assocSet, hk]]
        rw [List.map_cons, List.nodup_cons, hkeys]
        rw [hkeys] at ih2
        refine ⟨?_, ih2⟩
        simp only [List.mem_append, List.mem_singleton]
        rintro (hm | rfl)
        · exact h.1 hm
        · exact hk rfl

theorem assocGet_assocDelete_self {α : Type} (l : List (String × α))
    (k : String) (h : (l.map Prod.fst).Nodup) :
    assocGet (assocDelete l k) k = none := by
  induction l with
  | nil => simp [assocDelete, assocGet]
  | cons p rest ih =>
    simp only [List.map_cons, List.nodup_cons] at h
    by_cases hk : p.1 = k
    · subst hk
      simp only [assocDelete, if_pos rfl]
      exact assocGet_eq_none_of_not_mem rest p.1 h.1
    · simp [assocDelete, assocGet, hk, ih h.2]

-- ==================== Claim theorems ====================

/-- **C5.** For every key `k`, value `v` and ttl `t`: after
`SmartCache.set(k, v, t)` (with the cache enabled, on a well-formed map
whose keys are unduplicated), `get(k)` returns `v` at any time strictly
before `t` has elapsed, and once `t` has elapsed (strictly more than
`t` ms after the set) `get(k)` returns `null` (miss) and evicts the
expired entry from the store on that lookup. -/
theorem smartCache_set_get_ttl (c : SmartCache) (k : String) (v : JSValue)
    (ttl now t : Int) (hen : c.enabled = true)
    (hnodup : (c.cache.map Prod.fst).Nodup) (httl : 0 < ttl) :
    (t < now + ttl → ((c.set k v (some ttl) now).get k t).1 = v) ∧
    (now + ttl < t →
      ((c.set k v (some ttl) now).get k t).1 = JSValue.vNull ∧
      assocGet (((c.set k v (some ttl) now).get k t).2.cache) k = none) := by
  have httl0 : ttl ≠ 0 := ne_of_gt httl
  have hc1 : c.set k v (some ttl) now =
      { c with cache := assocSet c.cache k ⟨v, none, now + ttl, 0, now, false⟩ } := by
    simp [SmartCache.set, hen, jsTtlOr, httl0]
  rw [hc1]
  constructor
  · intro hlt
    simp [SmartCache.get, hen, assocGet_assocSet_self,
      show ¬ t > now + ttl by omega]
  · intro hgt
    simp [SmartCache.get, hen, assocGet_assocSet_self,
      show t > now + ttl by omega]
    exact assocGet_assocDelete_self _ _ (assocSet_nodup _ _ _ hnodup)

/-- Witness for C5 at a concrete input. -/
theorem smartCache_set_get_ttl_witness :
    (((SmartCache.new 300000).set "k" (.vStr "x") (some 100) 0).get "k" 50).1
        = JSValue.vStr "x" ∧
    (((SmartCache.new 300000).set "k" (.vStr "x") (some 100) 0).get "k" 101).1
        = JSValue.vNull :=
  ⟨(smartCache_set_get_ttl (SmartCache.new 300000) "k" (.vStr "x") 100 0 50
      rfl (by simp [SmartCache.new]) (by omega)).1 (by omega),
   ((smartCache_set_get_ttl (SmartCache.new 300000) "k" (.vStr "x") 100 0 101
      rfl (by simp [SmartCache.new]) (by omega)).2 (by omega)).1⟩

/-- **C6 (amended).** For every key and error message `e`,
`setNegative(key, e, ttl)` followed by `get(key)` within `ttl` returns
the negative-hit wrapper `{cached: true, error: e}`, and this wrapper is
distinguishable by shape from every non-object payload — in particular
from the falsy payloads `null`, `false`, `0`, `undefined` and `""`.
(It is *not* distinguishable from a positively cached payload of the
same object shape; see the counterexample.) -/
theorem smartCache_setNegative_get (c : SmartCache) (k e : String)
    (ttl now t : Int) (hen : c.enabled = true)
    (hneg : c.negativeEnabled = true) (hwin : t ≤ now + ttl) :
    ((c.setNegative k e ttl now).get k t).1
        = JSValue.vObj [("cached", .vBool true), ("error", .vStr e)] ∧
    (∀ b : Bool, JSValue.vObj [("cached", .vBool true), ("error", .vStr e)]
        ≠ JSValue.vBool b) ∧
    (∀ n : Int, JSValue.vObj [("cached", .vBool true), ("error", .vStr e)]
        ≠ JSValue.vNum n) ∧
    (∀ s : String, JSValue.vObj [("cached", .vBool true), ("error", .vStr e)]
        ≠ JSValue.vStr s) ∧
    JSValue.vObj [("cached", .vBool true), ("error", .vStr e)] ≠ JSValue.vNull ∧
    JSValue.vObj [("cached", .vBool true), ("error", .vStr e)] ≠ JSValue.vUndefined := by
  refine ⟨?_, ?_, ?_, ?_, ?_, ?_⟩
  · have hc1 : c.setNegative k e ttl now =
        { c with cache := assocSet c.cache k ⟨.vNull, some e, now + ttl, 0, now, true⟩ } := by
      simp [SmartCache.setNegative, hen, hneg]
    rw [hc1]
    simp [SmartCache.get, hen, assocGet_assocSet_self, negWrapper,
      show ¬ t > now + ttl by omega]
  · intro b h; simp at h
  · intro n h; simp at h
  · intro s h; simp at h
  · intro h; simp at h
  · intro h; simp at h

/-- Witness for C6 at a concrete input. -/
theorem smartCache_setNegative_get_witness :
    (((SmartCache.new 300000).setNegative "k" "boom" 30000 0).get "k" 10).1
      = JSValue.vObj [("cached", .vBool true), ("error", .vStr "boom")] :=
  (smartCache_setNegative_get (SmartCache.new 300000) "k" "boom" 30000 0 10
    rfl rfl (by omega)).1

/-- **C6 counterexample.** The negative-hit wrapper is *not*
distinguishable by shape from every positively cached payload: a
payload that is itself an object `{cached: true, error: "boom"}`, once
positively cached, is returned by `get` as a value identical to the
wrapper produced after `setNegative` with the same message. -/
theorem smartCache_negWrapper_shape_collision :
    (((SmartCache.new 300000).set "k"
        (.vObj [("cached", .vBool true), ("error", .vStr "boom")])
        (some 30000) 0).get "k" 10).1
      = (((SmartCache.new 300000).setNegative "k" "boom" 30000 0).get "k" 10).1 :=
  rfl

/-- **C10.** Whenever `RateLimiter.checkLimit` rejects a request, the
stored timestamp list for that identifier is left unchanged: the
rejected request's timestamp is not recorded. -/
theorem checkLimit_reject_frame (W : Int) (M : Nat) (en : Bool)
    (stored : List Int) (now : Int) (cl : Bool)
    (h : (checkLimit W M en stored now cl).1 = false) :
    (checkLimit W M en stored now cl).2 = stored := by
  cases en with
  | false => simp [checkLimit] at h
  | true =>
    by_cases hM : M ≤ (stored.filter (fun t => decide (now - t < W))).length
    · simp [checkLimit, hM]
    · cases cl <;> simp [checkLimit, hM] at h

/-- Witness for C10 at a concrete input: a caller at the production
ceiling of 100 requests is rejected and its stored state is unchanged. -/
theorem checkLimit_reject_frame_witness :
    (checkLimit 60000 100 true (List.replicate 100 0) 0 false).1 = false ∧
    (checkLimit 60000 100 true (List.replicate 100 0) 0 false).2
      = List.replicate 100 0 :=
  ⟨by decide, checkLimit_reject_frame 60000 100 true (List.replicate 100 0) 0
    false (by decide)⟩

/-- **C9 counterexample.** The claim's two parts contradict each other
on the repeated-digit input `111.111.111-11` itself: its check digits
*do* match the weighted mod-11 checksum computed from the 9-digit base,
yet `Validators.cpf` returns `false` (because of the repeated-digit
guard), so the validator does not return true *exactly* for the
checksum-matching 11-digit inputs. -/
theorem cpf_checksum_not_exact :
    Validators.cpf "111.111.111-11" = false ∧
    (cpfDigits "111.111.111-11").length = 11 ∧
    cpfChecksumSpec (cpfDigits "111.111.111-11") = true := by
  decide

/-- `Validators.cpf` as a conjunction of its four gates. -/
theorem cpf_eq_spec (s : String) :
    Validators.cpf s =
      (decide (s ≠ "") && decide ((cpfDigits s).length = 11) &&
       !repeatedDigits (cpfDigits s) && cpfChecksumSpec (cpfDigits s)) := by
  unfold Validators.cpf cpfChecksumSpec
  by_cases h1 : s = "" <;>
  by_cases h2 : (cpfDigits s).length = 11 <;>
  by_cases h3 : repeatedDigits (cpfDigits s) = true <;>
  by_cases h4 : (cpfDigits s).getD 9 0 = cpfCheckDigit (cpfSoma1 (cpfDigits s)) <;>
  by_cases h5 : (cpfDigits s).getD 10 0 = cpfCheckDigit (cpfSoma2 (cpfDigits s)) <;>
  simp [h1, h2, h3, h4, h5]

/-- **C9 (amended).** `Validators.cpf` returns `false` for every input
whose 11 digits are one repeated digit, and among the remaining inputs
returns `true` exactly for those with 11 digits whose two check digits
match the weighted mod-11 checksum computed from the 9-digit base. -/
theorem cpf_correct :
    (∀ s : String, (cpfDigits s).length = 11 →
        repeatedDigits (cpfDigits s) = true → Validators.cpf s = false) ∧
    (∀ s : String, Validators.cpf s = true ↔
        ((cpfDigits s).length = 11 ∧ repeatedDigits (cpfDigits s) = false ∧
         cpfChecksumSpec (cpfDigits s) = true)) := by
  constructor
  · intro s _ hrep
    rw [cpf_eq_spec]
    simp [hrep]
  · intro s
    rw [cpf_eq_spec]
    constructor
    · intro h
      simp only [Bool.and_eq_true, Bool.not_eq_true', decide_eq_true_eq] at h
      exact ⟨h.1.1.2, h.1.2, h.2⟩
    · rintro ⟨hl, hr, hck⟩
      have hs : s ≠ "" := by
        intro he
        rw [he] at hl
        simp [cpfDigits] at hl
      simp [hs, hl, hr, hck]

/-- Witness for C9's amended theorem at concrete inputs. -/
theorem cpf_correct_witness :
    Validators.cpf "22222222222" = false ∧
    Validators.cpf "529.982.247-25" = true :=
  ⟨cpf_correct.1 "22222222222" (by decide) (by decide),
   (cpf_correct.2 "529.982.247-25").2 ⟨by decide, by decide, by decide⟩⟩

/-- Shared helper: rejection leaves the stored list unchanged. -/
theorem checkLimit_reject_preserves (W : Int) (M : Nat) (en : Bool)
    (stored : List Int) (now : Int) (cl : Bool)
    (h : (checkLimit W M en stored now cl).1 = false) :
    (checkLimit W M en stored now cl).2 = stored := by
  cases en with
  | false => simp [checkLimit] at h
  | true =>
    by_cases hM : M ≤ (stored.filter (fun t => decide (now - t < W))).length
    · simp [checkLimit, hM]
    · cases cl <;> simp [checkLimit, hM] at h

/-- Shared helper: an admitted request's timestamp is recorded. -/
theorem checkLimit_admit_mem (W : Int) (M : Nat) (stored : List Int)
    (now : Int) (cl : Bool) (hW : 0 < W)
    (h : (checkLimit W M true stored now cl).1 = true) :
    now ∈ (checkLimit W M true stored now cl).2 := by
  by_cases hM : M ≤ (stored.filter (fun t => decide (now - t < W))).length
  · simp [checkLimit, hM] at h
  · cases cl <;> simp [checkLimit, hM, hW]

set_option maxRecDepth 4000 in
/-- **C1 (code-bug evaluation).** An upstream call that receives HTTP
400 on every attempt is *retried*: the 4xx `throw` of line 607 lands in
the `catch` of line 622, whose generic branch retries while
`attempt < retries`.  With the production ceiling of 3, three HTTP
attempts are observed (the claim and the code's own comment "Erro do
cliente - não tentar novamente" call for exactly one), the negative
cache entry is written on each attempt (twice on the last), and the
call finally fails with the classified `API_ERROR` and a negative
entry stored under the computed cache key. -/
theorem apiRequest_4xx_is_retried :
    ((apiRequest (SmartCache.new CONFIG.CACHE_TTL.SHORT)
        (fun _ => .httpErr 400 "Bad Request") "GET" "/clientes" none
        CONFIG.RETRY_ATTEMPTS 0).1.attempts = 3) ∧
    ((apiRequest (SmartCache.new CONFIG.CACHE_TTL.SHORT)
        (fun _ => .httpErr 400 "Bad Request") "GET" "/clientes" none
        CONFIG.RETRY_ATTEMPTS 0).1.delays = [2000, 4000]) ∧
    ((apiRequest (SmartCache.new CONFIG.CACHE_TTL.SHORT)
        (fun _ => .httpErr 400 "Bad Request") "GET" "/clientes" none
        CONFIG.RETRY_ATTEMPTS 0).1.negWrites.length = 4) ∧
    ((apiRequest (SmartCache.new CONFIG.CACHE_TTL.SHORT)
        (fun _ => .httpErr 400 "Bad Request") "GET" "/clientes" none
        CONFIG.RETRY_ATTEMPTS 0).1.outcome
      = .err ErrorCodes.API_ERROR "API Error 400: Bad Request") ∧
    (((apiRequest (SmartCache.new CONFIG.CACHE_TTL.SHORT)
        (fun _ => .httpErr 400 "Bad Request") "GET" "/clientes" none
        CONFIG.RETRY_ATTEMPTS 0).2.get "api_GET_/clientes_" 0).1
      = negWrapper (some "API Error 400: Bad Request")) :=
  ⟨rfl, rfl, rfl, rfl, rfl⟩

/-- **C2 (code-bug evaluation).** `buscaGlobal` performs no
minimum-length validation of its search term: invoked with the empty
term it issues its four upstream lookups (4 HTTP attempts observed
against an all-succeeding upstream) and returns `success: true`, not a
validation failure. -/
theorem buscaGlobal_empty_term_calls_upstream :
    ((buscaGlobal (SmartCache.new CONFIG.CACHE_TTL.SHORT)
        (fun _ _ => .ok (.vArr [])) "" 0).2 = 4) ∧
    (getField (buscaGlobal (SmartCache.new CONFIG.CACHE_TTL.SHORT)
        (fun _ _ => .ok (.vArr [])) "" 0).1 "success" = .vBool true) :=
  ⟨rfl, rfl⟩

set_option maxRecDepth 10000 in
/-- **C3 counterexample.** A malformed request (here: no body at all)
dispatched from a caller with an empty rate window is answered with the
invalid-request outcome but *does* consume admission budget (the
timestamp is recorded), and the same malformed request from a caller at
the 100-request production ceiling is answered with the rate-limit
error, not the invalid-request error. -/
theorem dispatch_malformed_consumes_budget :
    malformedBody none = true ∧
    (dispatch [] 0 false none).1 = .invalidEmpty ∧
    (dispatch [] 0 false none).2 = [0] ∧
    (dispatch (List.replicate 100 0) 0 false none).1 = .rateLimited 60 ∧
    rpcErrorCode (dispatch (List.replicate 100 0) 0 false none).1
      = some ErrorCodes.RATE_LIMIT_ERROR :=
  ⟨rfl, rfl, rfl, rfl, rfl⟩

/-- **C3 (amended).** The dispatcher applies the rate limiter *before*
envelope validation: a malformed envelope (empty body or `jsonrpc` not
`"2.0"`) is answered with the invalid-request error code only when the
rate limiter admits the call, and then the call consumes admission
budget (its timestamp is recorded in the caller's window); a caller
over the ceiling receives the rate-limit error with the remaining wait
time even for malformed envelopes, with state unchanged. -/
theorem dispatch_rate_limit_before_validation (lim : List Int) (now : Int)
    (cl : Bool) (body : Option (List (String × JSValue)))
    (hmal : malformedBody body = true) :
    ((checkLimit CONFIG.RATE_LIMIT_WINDOW CONFIG.RATE_LIMIT_MAX
        CONFIG.FEATURES.RATE_LIMIT_ENABLED lim now cl).1 = true →
      ((dispatch lim now cl body).1 = .invalidEmpty ∨
       (dispatch lim now cl body).1 = .invalidJsonRpc) ∧
      rpcErrorCode (dispatch lim now cl body).1
        = some ErrorCodes.INVALID_REQUEST ∧
      now ∈ (dispatch lim now cl body).2) ∧
    ((checkLimit CONFIG.RATE_LIMIT_WINDOW CONFIG.RATE_LIMIT_MAX
        CONFIG.FEATURES.RATE_LIMIT_ENABLED lim now cl).1 = false →
      (dispatch lim now cl body).1
        = .rateLimited (getRemainingTime CONFIG.RATE_LIMIT_WINDOW lim now) ∧
      (dispatch lim now cl body).2 = lim) := by
  constructor
  · intro hadm
    have hmem : now ∈ (checkLimit CONFIG.RATE_LIMIT_WINDOW
        CONFIG.RATE_LIMIT_MAX CONFIG.FEATURES.RATE_LIMIT_ENABLED
        lim now cl).2 :=
      checkLimit_admit_mem CONFIG.RATE_LIMIT_WINDOW
        CONFIG.RATE_LIMIT_MAX lim now cl
        (by norm_num [CONFIG.RATE_LIMIT_WINDOW]) hadm
    match body with
    | none =>
      refine ⟨Or.inl ?_, ?_, ?_⟩ <;>
        simp [dispatch, hadm, rpcErrorCode, hmem]
    | some fields =>
      simp only [malformedBody, Bool.or_eq_true] at hmal
      by_cases hempty : fields.isEmpty
      · refine ⟨Or.inl ?_, ?_, ?_⟩ <;>
          simp [dispatch, hadm, hempty, rpcErrorCode, hmem]
      · have hjr : jsIsStr (bodyField (some fields) "jsonrpc") "2.0" = false := by
          rcases hmal with h | h
          · exact absurd h hempty
          · simpa using h
        refine ⟨Or.inr ?_, ?_, ?_⟩ <;>
          simp [dispatch, hadm, hempty, hjr, rpcErrorCode, hmem]
  · intro hrej
    have hpre := checkLimit_reject_preserves CONFIG.RATE_LIMIT_WINDOW
      CONFIG.RATE_LIMIT_MAX CONFIG.FEATURES.RATE_LIMIT_ENABLED lim now cl hrej
    constructor <;> simp [dispatch, hrej, hpre]

/-- Witness for C3's amended theorem at a concrete input. -/
theorem dispatch_rate_limit_before_validation_witness :
    rpcErrorCode (dispatch [] 0 false none).1
      = some ErrorCodes.INVALID_REQUEST ∧
    (0 : Int) ∈ (dispatch [] 0 false none).2 :=
  ⟨((dispatch_rate_limit_before_validation [] 0 false none rfl).1
      (by decide)).2.1,
   ((dispatch_rate_limit_before_validation [] 0 false none rfl).1
      (by decide)).2.2⟩

/-- Shared helper: a successful attempt terminates the retry loop. -/
theorem apiLoop_ok_step (up : Nat → AttemptOutcome) (retries : Nat)
    (key : String) (fuel attempt : Nat) (data : JSValue)
    (hok : up attempt = .ok data) :
    apiLoop up retries key (fuel + 1) attempt =
      { attempts := attempt, delays := [], negWrites := [],
        outcome := .ok data } := by
  simp [apiLoop, hok]

/-- Shared helper: a 5xx/timeout attempt below the ceiling delays by
`RETRY_DELAY * attempt` and retries, with no negative-cache write. -/
theorem apiLoop_retry_step (up : Nat → AttemptOutcome) (retries : Nat)
    (key : String) (fuel attempt : Nat)
    (hret : serverErrOrTimeout (up attempt) = true) (hlt : attempt < retries) :
    apiLoop up retries key (fuel + 1) attempt =
      { apiLoop up retries key fuel (attempt + 1) with
        delays := CONFIG.RETRY_DELAY * attempt ::
          (apiLoop up retries key fuel (attempt + 1)).delays } := by
  cases hup : up attempt with
  | ok p => rw [hup] at hret; simp [serverErrOrTimeout] at hret
  | httpErr s t =>
    rw [hup] at hret
    simp only [serverErrOrTimeout, decide_eq_true_eq] at hret
    simp [apiLoop, hup, hlt, show ¬ s < 500 by omega]
  | timeout => simp [apiLoop, hup, hlt]
  | transportErr m => rw [hup] at hret; simp [serverErrOrTimeout] at hret

/-- Shared helper: a 5xx/timeout attempt at the ceiling stores one
negative entry and fails with a classified error. -/
theorem apiLoop_last_fail (up : Nat → AttemptOutcome) (retries : Nat)
    (key : String) (fuel attempt : Nat)
    (hret : serverErrOrTimeout (up attempt) = true)
    (hge : ¬ attempt < retries) :
    ∃ m c, apiLoop up retries key (fuel + 1) attempt =
        { attempts := attempt, delays := [], negWrites := [(key, m)],
          outcome := .err c m } ∧
      (c = ErrorCodes.API_ERROR ∨ c = ErrorCodes.TIMEOUT_ERROR) := by
  cases hup : up attempt with
  | ok p => rw [hup] at hret; simp [serverErrOrTimeout] at hret
  | httpErr s t =>
    rw [hup] at hret
    simp only [serverErrOrTimeout, decide_eq_true_eq] at hret
    refine ⟨s!"API Error {s}: {t}", ErrorCodes.API_ERROR, ?_, Or.inl rfl⟩
    simp [apiLoop, hup, hge, show ¬ s < 500 by omega]
  | timeout =>
    refine ⟨"API timeout", ErrorCodes.TIMEOUT_ERROR, ?_, Or.inr rfl⟩
    simp [apiLoop, hup, hge]
  | transportErr m => rw [hup] at hret; simp [serverErrOrTimeout] at hret

/-- Shared helper: `apiRequest` on a fresh cache runs the retry loop
from attempt 1 and applies its negative writes. -/
theorem apiRequest_fresh (d : Int) (up : Nat → AttemptOutcome)
    (method ep : String) (data : Option JSValue) (retries : Nat) (now : Int) :
    apiRequest (SmartCache.new d) up method ep data retries now =
      ((apiLoop up retries (mkApiCacheKey method ep data) retries 1),
       (apiLoop up retries (mkApiCacheKey method ep data) retries 1).negWrites.foldl
         (fun c kv => c.setNegative kv.1 kv.2 CONFIG.CACHE_TTL.NEGATIVE now)
         { SmartCache.new d with misses := 1 }) := by
  simp [apiRequest, SmartCache.get, SmartCache.new, assocGet, truthy, getField,
    CONFIG.FEATURES.CACHE_ENABLED, CONFIG.FEATURES.NEGATIVE_CACHE_ENABLED]

/-- Shared helper: reading a key just stored by `setNegative`, within
its ttl, yields the negative-hit wrapper. -/
theorem setNegative_get_wrapper (c : SmartCache) (k e : String)
    (ttl now t : Int) (hen : c.enabled = true)
    (hneg : c.negativeEnabled = true) (hwin : t ≤ now + ttl) :
    ((c.setNegative k e ttl now).get k t).1 = negWrapper (some e) := by
  have hc1 : c.setNegative k e ttl now =
      { c with cache := assocSet c.cache k ⟨.vNull, some e, now + ttl, 0, now, true⟩ } := by
    simp [SmartCache.setNegative, hen, hneg]
  rw [hc1]
  simp [SmartCache.get, hen, assocGet_assocSet_self, negWrapper,
    show ¬ t > now + ttl by omega]

/-- **C7.** Against a fresh negative cache, an upstream call whose
attempts all fail with server errors (5xx) or timeouts is retried up to
the fixed ceiling `RETRY_ATTEMPTS = 3` with inter-attempt delays
`RETRY_DELAY × attempt` (`[2000 ms, 4000 ms]`); after the final failed
attempt exactly one negative cache entry is stored under the computed
cache key (readable as the negative-hit wrapper) and the call fails
with a classified error (`API_ERROR` or `TIMEOUT_ERROR`).  If instead
some attempt `n ≤ 3` succeeds after 5xx/timeout failures, the call
returns success with exactly `n` attempts observed and delays
`RETRY_DELAY × k` for `k < n`. -/
theorem apiRequest_5xx_retry (up : Nat → AttemptOutcome) (ep : String)
    (now : Int) :
    ((∀ k, 1 ≤ k → k ≤ CONFIG.RETRY_ATTEMPTS → serverErrOrTimeout (up k) = true) →
      ∃ m c,
        (apiRequest (SmartCache.new CONFIG.CACHE_TTL.SHORT) up "GET" ep none
            CONFIG.RETRY_ATTEMPTS now).1 =
          { attempts := CONFIG.RETRY_ATTEMPTS,
            delays := [CONFIG.RETRY_DELAY * 1, CONFIG.RETRY_DELAY * 2],
            negWrites := [(mkApiCacheKey "GET" ep none, m)],
            outcome := .err c m } ∧
        (c = ErrorCodes.API_ERROR ∨ c = ErrorCodes.TIMEOUT_ERROR) ∧
        (((apiRequest (SmartCache.new CONFIG.CACHE_TTL.SHORT) up "GET" ep none
            CONFIG.RETRY_ATTEMPTS now).2).get (mkApiCacheKey "GET" ep none)
            now).1 = negWrapper (some m)) ∧
    (∀ n data, 1 ≤ n → n ≤ CONFIG.RETRY_ATTEMPTS →
      (∀ k, 1 ≤ k → k < n → serverErrOrTimeout (up k) = true) →
      up n = .ok data →
      (apiRequest (SmartCache.new CONFIG.CACHE_TTL.SHORT) up "GET" ep none
          CONFIG.RETRY_ATTEMPTS now).1 =
        { attempts := n,
          delays := (List.range (n - 1)).map
            (fun i => CONFIG.RETRY_DELAY * (i + 1)),
          negWrites := [],
          outcome := .ok data }) := by
  constructor
  · intro hfail
    have h1 := hfail 1 (by omega) (by norm_num [CONFIG.RETRY_ATTEMPTS])
    have h2 := hfail 2 (by omega) (by norm_num [CONFIG.RETRY_ATTEMPTS])
    have h3 := hfail 3 (by omega) (by norm_num [CONFIG.RETRY_ATTEMPTS])
    rw [apiRequest_fresh]
    set key := mkApiCacheKey "GET" ep none with hkey
    have e1 : apiLoop up 3 key 3 1 =
        { apiLoop up 3 key 2 2 with
          delays := CONFIG.RETRY_DELAY * 1 :: (apiLoop up 3 key 2 2).delays } :=
      apiLoop_retry_step up 3 key 2 1 h1 (by omega)
    have e2 : apiLoop up 3 key 2 2 =
        { apiLoop up 3 key 1 3 with
          delays := CONFIG.RETRY_DELAY * 2 :: (apiLoop up 3 key 1 3).delays } :=
      apiLoop_retry_step up 3 key 1 2 h2 (by omega)
    obtain ⟨m, c, e3, hc⟩ := apiLoop_last_fail up 3 key 0 3 h3 (by omega)
    have eAll : apiLoop up 3 key 3 1 =
        { attempts := 3,
          delays := [CONFIG.RETRY_DELAY * 1, CONFIG.RETRY_DELAY * 2],
          negWrites := [(key, m)], outcome := .err c m } := by
      rw [e1, e2, e3]
    have eAll' : apiLoop up CONFIG.RETRY_ATTEMPTS key CONFIG.RETRY_ATTEMPTS 1 =
        { attempts := CONFIG.RETRY_ATTEMPTS,
          delays := [CONFIG.RETRY_DELAY * 1, CONFIG.RETRY_DELAY * 2],
          negWrites := [(key, m)], outcome := .err c m } := eAll
    refine ⟨m, c, ?_, hc, ?_⟩
    · rw [eAll']
    · rw [eAll']
      exact setNegative_get_wrapper
        { SmartCache.new CONFIG.CACHE_TTL.SHORT with misses := 1 } key m
        CONFIG.CACHE_TTL.NEGATIVE now now rfl rfl
        (by norm_num [CONFIG.CACHE_TTL.NEGATIVE])
  · intro n data h1n hn3 hprev hok
    rw [apiRequest_fresh]
    set key := mkApiCacheKey "GET" ep none with hkey
    have hn3' : n ≤ 3 := hn3
    interval_cases n
    · have e1 : apiLoop up 3 key 3 1 =
          { attempts := 1, delays := [], negWrites := [], outcome := .ok data } :=
        apiLoop_ok_step up 3 key 2 1 data hok
      rw [show apiLoop up CONFIG.RETRY_ATTEMPTS key CONFIG.RETRY_ATTEMPTS 1 =
        apiLoop up 3 key 3 1 from rfl, e1]
      rfl
    · have h1 := hprev 1 (by omega) (by omega)
      have e1 : apiLoop up 3 key 3 1 =
          { apiLoop up 3 key 2 2 with
            delays := CONFIG.RETRY_DELAY * 1 :: (apiLoop up 3 key 2 2).delays } :=
        apiLoop_retry_step up 3 key 2 1 h1 (by omega)
      have e2 : apiLoop up 3 key 2 2 =
          { attempts := 2, delays := [], negWrites := [], outcome := .ok data } :=
        apiLoop_ok_step up 3 key 1 2 data hok
      rw [show apiLoop up CONFIG.RETRY_ATTEMPTS key CONFIG.RETRY_ATTEMPTS 1 =
        apiLoop up 3 key 3 1 from rfl, e1, e2]
      rfl
    · have h1 := hprev 1 (by omega) (by omega)
      have h2 := hprev 2 (by omega) (by omega)
      have e1 : apiLoop up 3 key 3 1 =
          { apiLoop up 3 key 2 2 with
            delays := CONFIG.RETRY_DELAY * 1 :: (apiLoop up 3 key 2 2).delays } :=
        apiLoop_retry_step up 3 key 2 1 h1 (by omega)
      have e2 : apiLoop up 3 key 2 2 =
          { apiLoop up 3 key 1 3 with
            delays := CONFIG.RETRY_DELAY * 2 :: (apiLoop up 3 key 1 3).delays } :=
        apiLoop_retry_step up 3 key 1 2 h2 (by omega)
      have e3 : apiLoop up 3 key 1 3 =
          { attempts := 3, delays := [], negWrites := [], outcome := .ok data } :=
        apiLoop_ok_step up 3 key 0 3 data hok
      rw [show apiLoop up CONFIG.RETRY_ATTEMPTS key CONFIG.RETRY_ATTEMPTS 1 =
        apiLoop up 3 key 3 1 from rfl, e1, e2, e3]
      rfl

/-- Witness for C7: the spec's end-to-end scenario 4 — HTTP 500 on
attempts 1 and 2, success on attempt 3 with ceiling 3 — returns success
with exactly 3 attempts observed, delays 2000 ms and 4000 ms, and no
negative write. -/
theorem apiRequest_5xx_retry_witness :
    (apiRequest (SmartCache.new CONFIG.CACHE_TTL.SHORT)
        (fun k => if k ≤ 2 then .httpErr 500 "err" else .ok (.vStr "ok"))
        "GET" "/x" none CONFIG.RETRY_ATTEMPTS 0).1 =
      { attempts := 3, delays := [2000, 4000], negWrites := [],
        outcome := .ok (.vStr "ok") } :=
  (apiRequest_5xx_retry
      (fun k => if k ≤ 2 then .httpErr 500 "err" else .ok (.vStr "ok")) "/x" 0).2
    3 (.vStr "ok") (by omega) (by norm_num [CONFIG.RETRY_ATTEMPTS])
    (by
      intro k hk1 hk3
      interval_cases k <;> decide)
    rfl

/-- Shared helper: a positive `get` within the ttl of a preceding `set`
returns the stored value (the updated cache state is existential). -/
theorem get_after_set (c : SmartCache) (k : String) (v : JSValue)
    (ttl now t : Int) (hen : c.enabled = true) (httl : ttl ≠ 0)
    (hle : ¬ t > now + ttl) :
    ∃ c', (c.set k v (some ttl) now).get k t = (v, c') := by
  have hc1 : c.set k v (some ttl) now =
      { c with cache := assocSet c.cache k ⟨v, none, now + ttl, 0, now, false⟩ } := by
    simp [SmartCache.set, hen, jsTtlOr, httl]
  refine ⟨{ c with
    cache := assocSet (assocSet c.cache k ⟨v, none, now + ttl, 0, now, false⟩)
      k ⟨v, none, now + ttl, 1, now, false⟩,
    hits := c.hits + 1 }, ?_⟩
  rw [hc1]
  simp [SmartCache.get, hen, assocGet_assocSet_self, hle]

/-- **C8.** `tools/list` always answers with the module-constant tool
registry, so repeated invocations return an identical registry; and a
cached read-only tool (`listar_pets_cliente` for a fixed `cliente_id`)
invoked twice within the MEDIUM TTL window issues exactly one upstream
HTTP call — the second invocation is served from the cache with zero
upstream calls — and the two responses are structurally equal. -/
theorem toolsList_and_petsCache_idempotent :
    (∀ lim now cl fields,
      (checkLimit CONFIG.RATE_LIMIT_WINDOW CONFIG.RATE_LIMIT_MAX
          CONFIG.FEATURES.RATE_LIMIT_ENABLED lim now cl).1 = true →
      fields.isEmpty = false →
      jsIsStr (bodyField (some fields) "jsonrpc") "2.0" = true →
      bodyField (some fields) "method" = .vStr "tools/list" →
      (dispatch lim now cl (some fields)).1 = .toolsListRes toolDefinitions) ∧
    (∀ (ps : List JSValue) (cid : String) (now1 now2 : Int)
        (up : Nat → AttemptOutcome),
      up 1 = .ok (.vArr ps) → now2 ≤ now1 + CONFIG.CACHE_TTL.MEDIUM →
      (listarPetsCliente (SmartCache.new CONFIG.CACHE_TTL.MEDIUM)
          (SmartCache.new CONFIG.CACHE_TTL.SHORT) up cid now1).2.2.2 = 1 ∧
      (listarPetsCliente
        (listarPetsCliente (SmartCache.new CONFIG.CACHE_TTL.MEDIUM)
            (SmartCache.new CONFIG.CACHE_TTL.SHORT) up cid now1).2.1
        (listarPetsCliente (SmartCache.new CONFIG.CACHE_TTL.MEDIUM)
            (SmartCache.new CONFIG.CACHE_TTL.SHORT) up cid now1).2.2.1
        up cid now2).2.2.2 = 0 ∧
      (listarPetsCliente
        (listarPetsCliente (SmartCache.new CONFIG.CACHE_TTL.MEDIUM)
            (SmartCache.new CONFIG.CACHE_TTL.SHORT) up cid now1).2.1
        (listarPetsCliente (SmartCache.new CONFIG.CACHE_TTL.MEDIUM)
            (SmartCache.new CONFIG.CACHE_TTL.SHORT) up cid now1).2.2.1
        up cid now2).1 =
      (listarPetsCliente (SmartCache.new CONFIG.CACHE_TTL.MEDIUM)
          (SmartCache.new CONFIG.CACHE_TTL.SHORT) up cid now1).1) := by
  constructor
  · intro lim now cl fields hadm hne hjr hm
    simp [dispatch, hadm, hne, hjr, hm]
  · intro ps cid now1 now2 up hok hwin
    have hMne : CONFIG.CACHE_TTL.MEDIUM ≠ 0 := by
      norm_num [CONFIG.CACHE_TTL.MEDIUM]
    have hpets0 : (SmartCache.new CONFIG.CACHE_TTL.MEDIUM).get
        ("pets_cliente_" ++ cid) now1 =
        (.vNull, { SmartCache.new CONFIG.CACHE_TTL.MEDIUM with misses := 1 }) := by
      simp [SmartCache.get, SmartCache.new, assocGet,
        CONFIG.FEATURES.CACHE_ENABLED]
    have hfin : apiRequest (SmartCache.new CONFIG.CACHE_TTL.SHORT) up "GET"
        ("/clientes/" ++ cid ++ "/pets") none CONFIG.RETRY_ATTEMPTS now1 =
        ({ attempts := 1, delays := [], negWrites := [],
           outcome := .ok (.vArr ps) },
         { SmartCache.new CONFIG.CACHE_TTL.SHORT with misses := 1 }) := by
      rw [apiRequest_fresh]
      rw [show apiLoop up CONFIG.RETRY_ATTEMPTS
          (mkApiCacheKey "GET" ("/clientes/" ++ cid ++ "/pets") none)
          CONFIG.RETRY_ATTEMPTS 1 =
          { attempts := 1, delays := [], negWrites := [],
            outcome := .ok (.vArr ps) } from
        apiLoop_ok_step up CONFIG.RETRY_ATTEMPTS _ 2 1 _ hok]
      rfl
    have hfirst : listarPetsCliente (SmartCache.new CONFIG.CACHE_TTL.MEDIUM)
        (SmartCache.new CONFIG.CACHE_TTL.SHORT) up cid now1 =
        (.vObj [("success", .vBool true), ("pets", .vArr ps),
                ("total", .vNum ps.length)],
         ({ SmartCache.new CONFIG.CACHE_TTL.MEDIUM with misses := 1 }).set
           ("pets_cliente_" ++ cid)
           (.vObj [("success", .vBool true), ("pets", .vArr ps),
                   ("total", .vNum ps.length)])
           (some CONFIG.CACHE_TTL.MEDIUM) now1,
         { SmartCache.new CONFIG.CACHE_TTL.SHORT with misses := 1 }, 1) := by
      simp [listarPetsCliente, hpets0, truthy, hfin, jsLength]
    obtain ⟨c', hget2⟩ := get_after_set
      ({ SmartCache.new CONFIG.CACHE_TTL.MEDIUM with misses := 1 })
      ("pets_cliente_" ++ cid)
      (.vObj [("success", .vBool true), ("pets", .vArr ps),
              ("total", .vNum ps.length)])
      CONFIG.CACHE_TTL.MEDIUM now1 now2 rfl hMne (by omega)
    refine ⟨?_, ?_, ?_⟩
    · rw [hfirst]
    · rw [hfirst]
      simp only [listarPetsCliente, hget2]
      simp [truthy, getField]
    · rw [hfirst]
      simp only [listarPetsCliente, hget2]
      simp [truthy, getField]

/-- Witness for C8 at concrete inputs: a well-formed `tools/list` call
from a fresh caller, and two `listar_pets_cliente` invocations 100 ms
apart against an upstream returning an empty pet list. -/
theorem toolsList_and_petsCache_idempotent_witness :
    (dispatch [] 0 false
        (some [("jsonrpc", .vStr "2.0"), ("method", .vStr "tools/list")])).1
      = .toolsListRes toolDefinitions ∧
    (listarPetsCliente (SmartCache.new CONFIG.CACHE_TTL.MEDIUM)
        (SmartCache.new CONFIG.CACHE_TTL.SHORT)
        (fun _ => .ok (.vArr [])) "1" 0).2.2.2 = 1 :=
  ⟨toolsList_and_petsCache_idempotent.1 [] 0 false
      [("jsonrpc", .vStr "2.0"), ("method", .vStr "tools/list")]
      (by decide) rfl rfl rfl,
   (toolsList_and_petsCache_idempotent.2 [] "1" 0 100
      (fun _ => .ok (.vArr [])) rfl
      (by norm_num [CONFIG.CACHE_TTL.MEDIUM])).1⟩

/-- Shared helper: filtering a sorted list by an upward-closed predicate
keeps a suffix; the dropped prefix all fails the predicate. -/
theorem filter_sorted_suffix (l : List Int) (p : Int → Bool)
    (hs : l.Sorted (· ≤ ·))
    (hmono : ∀ a b : Int, a ≤ b → p a = true → p b = true) :
    ∃ d, l = d ++ l.filter p ∧ ∀ x ∈ d, p x = false := by
  induction l with
  | nil => exact ⟨[], rfl, by simp⟩
  | cons x xs ih =>
    rcases List.sorted_cons.mp hs with ⟨hxle, hxs⟩
    by_cases hx : p x = true
    · have hall : ∀ y ∈ xs, p y = true := fun y hy => hmono x y (hxle y hy) hx
      refine ⟨[], ?_, by simp⟩
      rw [List.filter_cons_of_pos hx, List.filter_eq_self.mpr hall,
        List.nil_append]
    · obtain ⟨d, hd, hdp⟩ := ih hxs
      refine ⟨x :: d, ?_, ?_⟩
      · rw [List.filter_cons_of_neg (by simp [hx]), List.cons_append]
        exact congrArg (x :: ·) hd
      · intro y hy
        rcases List.mem_cons.mp hy with rfl | hy
        · simpa using hx
        · exact hdp y hy

/-- Shared helper: pointwise implication of predicates is monotone in
the filtered length. -/
theorem length_filter_le_of_imp (l : List Int) (p q : Int → Bool)
    (h : ∀ a ∈ l, p a = true → q a = true) :
    (l.filter p).length ≤ (l.filter q).length := by
  induction l with
  | nil => simp
  | cons x xs ih =>
    have ih' := ih (fun a ha hp => h a (List.mem_cons_of_mem _ ha) hp)
    by_cases hp : p x = true
    · have hq := h x (List.mem_cons_self _ _) hp
      simp only [List.filter_cons, hp, hq, if_true, List.length_cons]
      omega
    · by_cases hq : q x = true <;>
        simp only [List.filter_cons, hp, hq, List.length_cons] <;>
        simp <;> omega

/-- Shared helper: `checkLimit` on an over-budget window rejects and
leaves the list unchanged. -/
theorem checkLimit_reject_eq (W : Int) (M : Nat) (stored : List Int)
    (now : Int) (cl : Bool)
    (h : M ≤ (stored.filter (fun x => decide (now - x < W))).length) :
    checkLimit W M true stored now cl = (false, stored) := by
  simp [checkLimit, h]

/-- Shared helper: `checkLimit` under budget admits, appends `now`, and
(when the probabilistic cleanup fires) re-filters with the same clock. -/
theorem checkLimit_admit_eq (W : Int) (M : Nat) (stored : List Int)
    (now : Int) (cl : Bool)
    (h : ¬ M ≤ (stored.filter (fun x => decide (now - x < W))).length) :
    checkLimit W M true stored now cl =
      (true,
       if cl then
         ((stored.filter (fun x => decide (now - x < W)) ++ [now]).filter
           (fun x => decide (now - x < W)))
       else
         (stored.filter (fun x => decide (now - x < W)) ++ [now])) := by
  cases cl <;> simp [checkLimit, h]

/-- Shared helper: the sliding-window invariant, generalized for
induction.  `A` is the trace of previously admitted timestamps,
`stored` the limiter's current list (a pruned suffix of `A`), `nlast`
an upper bound on past time; every trailing window over the admitted
trace stays within the ceiling. -/
theorem rlRun_aux (W : Int) (M : Nat) :
    ∀ (steps : List (Int × Bool)) (stored A : List Int) (nlast : Int),
    stored.Sorted (· ≤ ·) →
    (∀ s ∈ stored, s ≤ nlast) →
    (∃ d, A = d ++ stored ∧ ∀ x ∈ d, W ≤ nlast - x) →
    (∀ a ∈ A, a ≤ nlast) →
    (∀ T, countW W T A ≤ M) →
    (∀ x ∈ steps, nlast ≤ x.1) →
    ((steps.map Prod.fst).Sorted (· ≤ ·)) →
    ∀ T, countW W T (A ++ rlRun W M stored steps) ≤ M := by
  intro steps
  induction steps with
  | nil =>
    intro stored A nlast _ _ _ _ hbound _ _ T
    simpa [rlRun] using hbound T
  | cons st rest ih =>
    obtain ⟨t, cl⟩ := st
    intro stored A nlast hss hsn hsuf hAn hbound hsteps hsort T
    obtain ⟨d, hA, hd⟩ := hsuf
    have hnt : nlast ≤ t := hsteps (t, cl) (List.mem_cons_self _ _)
    have hsort' : (t :: rest.map Prod.fst).Sorted (· ≤ ·) := by
      simpa using hsort
    rcases List.sorted_cons.mp hsort' with ⟨hrestle, hrest2⟩
    have hrest1 : ∀ x ∈ rest, t ≤ x.1 := fun x hx =>
      hrestle x.1 (List.mem_map_of_mem _ hx)
    by_cases hM : M ≤ (stored.filter (fun x => decide (t - x < W))).length
    · -- rejected: state and trace unchanged
      have hrun : rlRun W M stored ((t, cl) :: rest) = rlRun W M stored rest := by
        simp [rlRun, CONFIG.FEATURES.RATE_LIMIT_ENABLED,
          checkLimit_reject_eq W M stored t cl hM]
      rw [hrun]
      exact ih stored A nlast hss hsn ⟨d, hA, hd⟩ hAn hbound
        (fun x hx => le_trans hnt (hrest1 x hx)) hrest2 T
    · -- admitted
      have hlen : (stored.filter (fun x => decide (t - x < W))).length < M :=
        Nat.lt_of_not_le hM
      have hboundA' : ∀ T', countW W T' (A ++ [t]) ≤ M := by
        intro T'
        have hsplit : countW W T' (A ++ [t]) =
            countW W T' A + countW W T' [t] := by
          simp [countW, List.filter_append]
        rw [hsplit]
        by_cases hmem : t ≤ T' ∧ T' - t < W
        · have h1 : countW W T' A ≤ countW W t A := by
            apply length_filter_le_of_imp
            intro a ha hpa
            simp only [Bool.and_eq_true, decide_eq_true_eq] at hpa ⊢
            refine ⟨le_trans (hAn a ha) hnt, ?_⟩
            omega
          have h2 : countW W t A =
              (stored.filter (fun x => decide (t - x < W))).length := by
            rw [hA]
            simp only [countW, List.filter_append, List.length_append]
            have hdnil : d.filter
                (fun a => decide (a ≤ t) && decide (t - a < W)) = [] := by
              rw [List.filter_eq_nil_iff]
              intro a ha
              have := hd a ha
              simp only [Bool.and_eq_true, decide_eq_true_eq, not_and]
              intro _
              omega
            have hstored : stored.filter
                (fun a => decide (a ≤ t) && decide (t - a < W)) =
                stored.filter (fun x => decide (t - x < W)) := by
              apply List.filter_congr
              intro a ha
              have hat : a ≤ t := le_trans (hsn a ha) hnt
              simp [hat]
            rw [hdnil, hstored]
            simp
          have h3 : countW W T' [t] ≤ 1 := by
            simpa [countW] using List.length_filter_le
              (fun a => decide (a ≤ T') && decide (T' - a < W)) [t]
          have := h1.trans (le_of_eq h2)
          omega
        · have h0 : countW W T' [t] = 0 := by
            have hff : (decide (t ≤ T') && decide (T' - t < W)) = false := by
              rcases not_and_or.mp hmem with h | h <;> simp [h]
            simp [countW, List.filter_cons, hff]
          rw [h0]
          simpa using hbound T'
      have hmono : ∀ a b : Int, a ≤ b →
          (fun x => decide (t - x < W)) a = true →
          (fun x => decide (t - x < W)) b = true := by
        intro a b hab hpa
        simp only [decide_eq_true_eq] at hpa ⊢
        omega
      obtain ⟨d2, hd2eq, hd2p⟩ :=
        filter_sorted_suffix stored (fun x => decide (t - x < W)) hss hmono
      have hrecle : ∀ x ∈ stored.filter (fun x => decide (t - x < W)), x ≤ t :=
        fun x hx => le_trans (hsn x (List.mem_of_mem_filter hx)) hnt
      have hrsorted :
          (stored.filter (fun x => decide (t - x < W)) ++ [t]).Sorted (· ≤ ·) := by
        show List.Pairwise (· ≤ ·)
          (stored.filter (fun x => decide (t - x < W)) ++ [t])
        rw [List.pairwise_append]
        refine ⟨List.Pairwise.sublist (List.filter_sublist _) hss,
          List.pairwise_singleton _ _, ?_⟩
        intro a ha b hb
        rw [List.mem_singleton] at hb
        subst hb
        exact hrecle a ha
      have hd2cond : ∀ x ∈ d ++ d2, W ≤ t - x := by
        intro x hx
        rcases List.mem_append.mp hx with hx | hx
        · have := hd x hx
          omega
        · have := hd2p x hx
          simp only [decide_eq_false_iff_not, not_lt] at this
          omega
      have hAsplit : A ++ [t] = (d ++ d2) ++
          (stored.filter (fun x => decide (t - x < W)) ++ [t]) := by
        conv_lhs => rw [hA, hd2eq]
        simp [List.append_assoc]
      have hAle : ∀ a ∈ A ++ [t], a ≤ t := by
        intro a ha
        rcases List.mem_append.mp ha with ha | ha
        · exact le_trans (hAn a ha) hnt
        · rw [List.mem_singleton] at ha
          subst ha
          exact le_refl _
      cases cl with
      | false =>
        have hrun : rlRun W M stored ((t, false) :: rest) =
            t :: rlRun W M
              (stored.filter (fun x => decide (t - x < W)) ++ [t]) rest := by
          simp [rlRun, CONFIG.FEATURES.RATE_LIMIT_ENABLED,
            checkLimit_admit_eq W M stored t false hM]
        rw [hrun, show A ++ t :: rlRun W M
            (stored.filter (fun x => decide (t - x < W)) ++ [t]) rest =
            (A ++ [t]) ++ rlRun W M
            (stored.filter (fun x => decide (t - x < W)) ++ [t]) rest by simp]
        refine ih _ (A ++ [t]) t hrsorted ?_ ⟨d ++ d2, hAsplit, hd2cond⟩
          hAle hboundA' hrest1 hrest2 T
        intro s hs
        rcases List.mem_append.mp hs with hs | hs
        · exact hrecle s hs
        · rw [List.mem_singleton] at hs
          subst hs
          exact le_refl _
      | true =>
        obtain ⟨d3, hd3eq, hd3p⟩ := filter_sorted_suffix
          (stored.filter (fun x => decide (t - x < W)) ++ [t])
          (fun x => decide (t - x < W)) hrsorted hmono
        have hrun : rlRun W M stored ((t, true) :: rest) =
            t :: rlRun W M
              ((stored.filter (fun x => decide (t - x < W)) ++ [t]).filter
                (fun x => decide (t - x < W))) rest := by
          simp [rlRun, CONFIG.FEATURES.RATE_LIMIT_ENABLED,
            checkLimit_admit_eq W M stored t true hM]
        rw [hrun, show A ++ t :: rlRun W M
            ((stored.filter (fun x => decide (t - x < W)) ++ [t]).filter
              (fun x => decide (t - x < W))) rest =
            (A ++ [t]) ++ rlRun W M
            ((stored.filter (fun x => decide (t - x < W)) ++ [t]).filter
              (fun x => decide (t - x < W))) rest by simp]
        have hsorted3 : ((stored.filter (fun x => decide (t - x < W)) ++
            [t]).filter (fun x => decide (t - x < W))).Sorted (· ≤ ·) :=
          List.Pairwise.sublist (List.filter_sublist _) hrsorted
        have hle3 : ∀ s ∈ (stored.filter (fun x => decide (t - x < W)) ++
            [t]).filter (fun x => decide (t - x < W)), s ≤ t := by
          intro s hs
          have hs' := List.mem_of_mem_filter hs
          rcases List.mem_append.mp hs' with hs' | hs'
          · exact hrecle s hs'
          · rw [List.mem_singleton] at hs'
            subst hs'
            exact le_refl _
        have hd3cond : ∀ x ∈ (d ++ d2) ++ d3, W ≤ t - x := by
          intro x hx
          rcases List.mem_append.mp hx with hx | hx
          · exact hd2cond x hx
          · have := hd3p x hx
            simp only [decide_eq_false_iff_not, not_lt] at this
            omega
        have hAsplit3 : A ++ [t] = ((d ++ d2) ++ d3) ++
            ((stored.filter (fun x => decide (t - x < W)) ++ [t]).filter
              (fun x => decide (t - x < W))) := by
          conv_lhs => rw [hAsplit, hd3eq]
          simp [List.append_assoc]
        exact ih _ (A ++ [t]) t hsorted3 hle3
          ⟨(d ++ d2) ++ d3, hAsplit3, hd3cond⟩ hAle hboundA' hrest1 hrest2 T

/-- **C4.** For any identifier, the timestamps admitted by
`RateLimiter.checkLimit` over any chronologically ordered run of
requests (with the probabilistic cleanup firing or not at each admitted
step) respect the ceiling in every trailing window: no interval
`(T - windowMs, T]` ever contains more than `maxRequests` admitted
timestamps.  Pruning happens before the count check, so expired
timestamps never count against the budget. -/
theorem rateLimiter_sliding_window (W : Int) (M : Nat)
    (steps : List (Int × Bool))
    (hs : (steps.map Prod.fst).Sorted (· ≤ ·)) (T : Int) :
    countW W T (rlRun W M [] steps) ≤ M := by
  cases steps with
  | nil => simp [rlRun, countW]
  | cons st rest =>
    have hsort' : (st.1 :: rest.map Prod.fst).Sorted (· ≤ ·) := by simpa using hs
    rcases List.sorted_cons.mp hsort' with ⟨hle, _⟩
    have hsteps : ∀ x ∈ st :: rest, st.1 ≤ x.1 := by
      intro x hx
      rcases List.mem_cons.mp hx with rfl | hx
      · exact le_refl _
      · exact hle x.1 (List.mem_map_of_mem _ hx)
    have h := rlRun_aux W M (st :: rest) [] [] st.1 (by simp) (by simp)
      ⟨[], by simp, by simp⟩ (by simp) (fun T' => by simp [countW]) hsteps hs T
    simpa using h

/-- Witness for C4 at a concrete input: two chronological requests under
the production configuration. -/
theorem rateLimiter_sliding_window_witness :
    countW 60000 1 (rlRun 60000 100 [] [(0, false), (1, true)]) ≤ 100 :=
  rateLimiter_sliding_window 60000 100 [(0, false), (1, true)] (by decide) 1
